import Mathlib

/-!
Shallow embedding of `bot_runner.py` (the single source file of this
repository): an HTTP service that receives a Twilio inbound-call callback,
provisions a Daily room and a token, launches a worker process, and answers
with hold-music markup.  External services (the Daily REST helper and the
OS process spawn) are modelled as an oracle record `Services`; every outbound
call is recorded in an event trace so that side-effect claims are statable.
-/

namespace BotRunner

/-- `MAX_SESSION_TIME = 5 * 60` (line 32 of the source). -/
def MAX_SESSION_TIME : Nat := 5 * 60

/-- `REQUIRED_ENV_VARS = ["OPENAI_API_KEY", "DAILY_API_KEY"]` (line 33). -/
def REQUIRED_ENV_VARS : List String := ["OPENAI_API_KEY", "DAILY_API_KEY"]

/-- SIP parameters passed to the room service (lines 56-61). -/
structure DailyRoomSipParams where
  display_name : String
  video : Bool
  sip_mode : String
  num_endpoints : Nat
deriving Repr, DecidableEq

/-- Room properties wrapper (lines 55-62). -/
structure DailyRoomProperties where
  sip : DailyRoomSipParams
deriving Repr, DecidableEq

/-- Room creation parameters (lines 54-63). -/
structure DailyRoomParams where
  properties : DailyRoomProperties
deriving Repr, DecidableEq

/-- The `config` attribute of a room object; only `sip_endpoint` is used. -/
structure DailyRoomConfig where
  sip_endpoint : String
deriving Repr, DecidableEq

/-- A room object as returned by the room service: `url` and `config`. -/
structure DailyRoomObject where
  url : String
  config : DailyRoomConfig
deriving Repr, DecidableEq

/-- Python-level failures the handler can produce: a controlled
`HTTPException(status, detail)` or an uncontrolled `AttributeError`
(raised when an attribute of `None` is dereferenced). -/
inductive PyError where
  | httpException (status : Nat) (detail : String)
  | attributeError (msg : String)
deriving Repr, DecidableEq

/-- Outbound side effects of one request: a room-service call, a
token-service call, or a successfully launched worker process. -/
inductive Event where
  | roomCall (params : DailyRoomParams)
  | tokenCall (url : String) (expiry : Nat)
  | launch (cmd : String)
deriving Repr, DecidableEq

/-- Oracle for the external world: what the room service returns
(`none` models Python `None`), what the token service returns for a given
room url and expiry, and whether `subprocess.Popen` succeeds or raises. -/
structure Services where
  create_room_result : Option DailyRoomObject
  get_token_result : String → Nat → String
  popen_result : String → Except String Unit

/-- Python truthiness of the `room` variable: `None` is falsy, a room
object is truthy. -/
def roomTruthy : Option DailyRoomObject → Bool
  | none => false
  | some _ => true

/-- The fixed room parameters built at lines 54-63. -/
def roomParams : DailyRoomParams :=
  { properties := { sip := { display_name := "dialin-user", video := false,
                             sip_mode := "dial-in", num_endpoints := 1 } } }

/-- The worker launch command string built at line 76 of the source. -/
def bot_cmd (url token callId sip : String) : String :=
  "python3 -m bot_twilio -u " ++ url ++ " -t " ++ token ++ " -i " ++ callId
    ++ " -s " ++ sip

/-- `create_daily_room` (lines 52-84).  Dereferencing `room.url` in the
log line 67 happens before the token call, so a `None` room raises an
`AttributeError` there; otherwise the token is fetched, the
`if not room or not token` check runs, and on success the worker command
is launched via `Popen`.  The returned trace lists the outbound calls in
program order. -/
def create_daily_room (sv : Services) (callId : String) :
    Except PyError DailyRoomObject × List Event :=
  match sv.create_room_result with
  | none =>
      (Except.error (PyError.attributeError
        "\x27NoneType\x27 object has no attribute \x27url\x27"),
       [Event.roomCall roomParams])
  | some room =>
      if !roomTruthy (some room)
          || sv.get_token_result room.url MAX_SESSION_TIME == "" then
        (Except.error (PyError.httpException 500 "Failed to get room or token"),
         [Event.roomCall roomParams,
          Event.tokenCall room.url MAX_SESSION_TIME])
      else
        match sv.popen_result (bot_cmd room.url
            (sv.get_token_result room.url MAX_SESSION_TIME) callId
            room.config.sip_endpoint) with
        | Except.error e =>
            (Except.error (PyError.httpException 500
              ("Failed to start subprocess: " ++ e)),
             [Event.roomCall roomParams,
              Event.tokenCall room.url MAX_SESSION_TIME])
        | Except.ok _ =>
            (Except.ok room,
             [Event.roomCall roomParams,
              Event.tokenCall room.url MAX_SESSION_TIME,
              Event.launch (bot_cmd room.url
                (sv.get_token_result room.url MAX_SESSION_TIME) callId
                room.config.sip_endpoint)])

/-- An inbound HTTP request: its form body either parses to a list of
fields or fails to parse (`Except.error`). -/
structure Request where
  form : Except Unit (List (String × String))

/-- `dict(form_data)` followed by `.get(k)`: the last binding of a key
wins, absent keys give `none`. -/
def dictGet (l : List (String × String)) (k : String) : Option String :=
  l.foldl (fun acc p => if p.1 = k then some p.2 else acc) none

/-- Python truthiness of `callId`: `None` and the empty string are falsy. -/
def strOptTruthy : Option String → Bool
  | none => false
  | some s => !(s == "")

/-- The fixed hold-music URL at line 109. -/
def HOLD_MUSIC_URL : String :=
  "http://com.twilio.sounds.music.s3.amazonaws.com/MARKOVICHAMP-Borghestral.mp3"

/-- One TwiML verb: a `<Play>` element with a url body and a loop count. -/
inductive TwimlVerb where
  | play (url : String) (loopCount : Nat)
deriving Repr, DecidableEq

/-- Modelled from the spec: the markup rendering of the external twilio
library `VoiceResponse` class (not part of this repository).  Per the
response-markup contract, a `<Play>` verb renders as a `<Play>` element
whose `loop` attribute is the loop count and whose body is the URL. -/
def renderVerb : TwimlVerb → String
  | TwimlVerb.play url n =>
      "<Play loop=" ++ "\"" ++ toString n ++ "\"" ++ ">" ++ url ++ "</Play>"

/-- Modelled from the spec: `str(VoiceResponse())` renders an XML
voice-response document wrapping the rendered verbs. -/
def renderVoiceResponse (verbs : List TwimlVerb) : String :=
  "<?xml version=\"1.0\" encoding=\"UTF-8\"?><Response>"
    ++ String.join (verbs.map renderVerb) ++ "</Response>"

/-- Lines 90-94: parse the form body; on any parse failure use `{}`. -/
def parsedForm (req : Request) : List (String × String) :=
  match req.form with
  | Except.ok fields => fields
  | Except.error _ => []

/-- The `POST /twilio_start_bot` handler (lines 86-112): reject a falsy
`CallSid` with a 500, otherwise run `create_daily_room` and on success
return the rendered hold-music voice response. -/
def twilio_start_bot (sv : Services) (req : Request) :
    Except PyError String × List Event :=
  if !strOptTruthy (dictGet (parsedForm req) "CallSid") then
    (Except.error (PyError.httpException 500
      "Missing \x27CallSid\x27 in request"), [])
  else
    match create_daily_room sv
        ((dictGet (parsedForm req) "CallSid").getD "") with
    | (Except.error e, evs) => (Except.error e, evs)
    | (Except.ok _, evs) =>
        (Except.ok (renderVoiceResponse [TwimlVerb.play HOLD_MUSIC_URL 10]),
         evs)

/-- The startup loop at lines 118-120: walk `REQUIRED_ENV_VARS` in order
and raise on the first variable absent from the environment. -/
def check_env_vars : List String → List (String × String) → Except String Unit
  | [], _ => Except.ok ()
  | v :: rest, env =>
      if (env.map Prod.fst).contains v then
        check_env_vars rest env
      else
        Except.error ("Missing environment variable: " ++ v ++ ".")

/-- The whole startup environment check over `REQUIRED_ENV_VARS`. -/
def startup_env_check (env : List (String × String)) : Except String Unit :=
  check_env_vars REQUIRED_ENV_VARS env

/-- Predicate picking out room-service calls in a trace. -/
def isRoomCall : Event → Bool
  | Event.roomCall _ => true
  | _ => false

/-- Predicate picking out token-service calls in a trace. -/
def isTokenCall : Event → Bool
  | Event.tokenCall _ _ => true
  | _ => false

/-- Predicate picking out worker launches in a trace. -/
def isLaunch : Event → Bool
  | Event.launch _ => true
  | _ => false

/-- Does the error correspond to the controlled status-500
`ProvisioningError` of the spec? -/
def isControlled500 : PyError → Bool
  | PyError.httpException 500 _ => true
  | _ => false

/-- The spec-side rendering of a flag-argument list: each pair contributes
a space, the flag, a space and the unmodified value, in list order. -/
def flagArgs : List (String × String) → String
  | [] => ""
  | p :: rest => " " ++ p.1 ++ " " ++ p.2 ++ flagArgs rest

/-- A concrete room object, used to instantiate the oracle in witnesses. -/
def roomA : DailyRoomObject :=
  { url := "https://x.daily.co/abc", config := { sip_endpoint := "sip:abc@x.daily.co" } }

/-- A second concrete room object with different field values. -/
def roomB : DailyRoomObject :=
  { url := "https://y.daily.co/def", config := { sip_endpoint := "sip:def@y.daily.co" } }

/-- Oracle where everything succeeds. -/
def svOk : Services :=
  { create_room_result := some roomA,
    get_token_result := fun _ _ => "tok456",
    popen_result := fun _ => Except.ok () }

/-- A second all-success oracle with a different room and token. -/
def svOk2 : Services :=
  { create_room_result := some roomB,
    get_token_result := fun _ _ => "tok999",
    popen_result := fun _ => Except.ok () }

/-- Oracle where the room service returns no room object. -/
def svNone : Services :=
  { create_room_result := none,
    get_token_result := fun _ _ => "tok456",
    popen_result := fun _ => Except.ok () }

/-- Oracle where the token service returns the empty token. -/
def svEmptyTok : Services :=
  { create_room_result := some roomA,
    get_token_result := fun _ _ => "",
    popen_result := fun _ => Except.ok () }

/-- A request whose form carries `CallSid=CA123`. -/
def reqOk : Request := { form := Except.ok [("CallSid", "CA123")] }

/-- A request whose form carries `CallSid=CA999`. -/
def reqOk2 : Request := { form := Except.ok [("CallSid", "CA999")] }

/-- A request whose form parses but has no fields. -/
def reqEmpty : Request := { form := Except.ok [] }

/-- Shape of a successful provisioning run: the returned room is exactly
the service room, the token was non-empty, and the trace is the
room call, the token call with expiry `MAX_SESSION_TIME`, then the launch
of the worker command, in that order. -/
lemma create_daily_room_ok_shape (sv : Services) (callId : String)
    (room : DailyRoomObject) (evs : List Event)
    (h : create_daily_room sv callId = (Except.ok room, evs)) :
    sv.create_room_result = some room ∧
    sv.get_token_result room.url MAX_SESSION_TIME ≠ "" ∧
    evs = [Event.roomCall roomParams,
           Event.tokenCall room.url MAX_SESSION_TIME,
           Event.launch (bot_cmd room.url
             (sv.get_token_result room.url MAX_SESSION_TIME) callId
             room.config.sip_endpoint)] := by
  unfold create_daily_room at h
  split at h
  · simp at h
  · rename_i r hr
    split at h
    · simp at h
    · rename_i hcond
      split at h
      · simp at h
      · simp only [Prod.mk.injEq, Except.ok.injEq] at h
        obtain ⟨h1, h2⟩ := h
        subst h1
        refine ⟨hr, ?_, h2.symm⟩
        intro he
        exact hcond (by simp [roomTruthy, he])

/-- On any successful handler run the body is the fixed hold-music
voice response. -/
lemma twilio_success_body (sv : Services) (req : Request)
    (body : String) (evs : List Event)
    (h : twilio_start_bot sv req = (Except.ok body, evs)) :
    body = renderVoiceResponse [TwimlVerb.play HOLD_MUSIC_URL 10] := by
  unfold twilio_start_bot at h
  split at h
  · simp at h
  · split at h
    · simp at h
    · simp only [Prod.mk.injEq, Except.ok.injEq] at h
      exact h.1.symm

/-- The launch command string is exactly the worker name followed by the
four flag arguments rendered in order with unmodified values. -/
lemma bot_cmd_flags (u t i s : String) :
    bot_cmd u t i s =
      "python3 -m bot_twilio"
        ++ flagArgs [("-u", u), ("-t", t), ("-i", i), ("-s", s)] := by
  simp only [bot_cmd, flagArgs]
  simp [← String.append_assoc, String.append_empty]

/-- C1: a request whose parsed form data lacks a non-empty CallSid gets a
500 response and causes zero room-service and zero token-service calls. -/
theorem C1_missing_callid_no_side_effects (sv : Services) (req : Request)
    (h : strOptTruthy (dictGet (parsedForm req) "CallSid") = false) :
    (twilio_start_bot sv req).1 =
      Except.error (PyError.httpException 500
        "Missing \x27CallSid\x27 in request") ∧
    (twilio_start_bot sv req).2.countP isRoomCall = 0 ∧
    (twilio_start_bot sv req).2.countP isTokenCall = 0 := by
  unfold twilio_start_bot
  rw [h]
  simp

/-- Witness for C1: the all-success oracle with a form that has no
CallSid field. -/
theorem C1_missing_callid_no_side_effects_witness :
    (twilio_start_bot svOk reqEmpty).1 =
      Except.error (PyError.httpException 500
        "Missing \x27CallSid\x27 in request") ∧
    (twilio_start_bot svOk reqEmpty).2.countP isRoomCall = 0 ∧
    (twilio_start_bot svOk reqEmpty).2.countP isTokenCall = 0 :=
  C1_missing_callid_no_side_effects svOk reqEmpty rfl

/-- C2: if the room service returns no room object, the provisioning
sequence fails (with the uncontrolled attribute error raised when the
missing room's url is dereferenced) and no token-service call is made. -/
theorem C2_missing_room_fails_before_token (sv : Services) (callId : String)
    (h : sv.create_room_result = none) :
    (create_daily_room sv callId).1 =
      Except.error (PyError.attributeError
        "\x27NoneType\x27 object has no attribute \x27url\x27") ∧
    (create_daily_room sv callId).2.countP isTokenCall = 0 := by
  unfold create_daily_room
  rw [h]
  simp [isTokenCall]

/-- Witness for C2: the oracle whose room service returns `none`. -/
theorem C2_missing_room_fails_before_token_witness :
    (create_daily_room svNone "CA1").1 =
      Except.error (PyError.attributeError
        "\x27NoneType\x27 object has no attribute \x27url\x27") ∧
    (create_daily_room svNone "CA1").2.countP isTokenCall = 0 :=
  C2_missing_room_fails_before_token svNone "CA1" rfl

/-- C3 counterexample: when the room service returns no room, the
sequence does fail, but with an uncontrolled attribute error, not the
controlled status-500 provisioning error the claim states. -/
theorem C3_counterexample :
    (create_daily_room svNone "CA123").1 =
      Except.error (PyError.attributeError
        "\x27NoneType\x27 object has no attribute \x27url\x27") ∧
    isControlled500 (PyError.attributeError
      "\x27NoneType\x27 object has no attribute \x27url\x27") = false :=
  ⟨rfl, rfl⟩

/-- C3 (amended): with a room present but an empty token, the sequence
fails with the controlled 500 provisioning error and the trace contains
no worker launch; with a missing room the sequence also fails before any
launch, but with an uncontrolled attribute error instead of the
controlled 500. -/
theorem C3_empty_token_500_before_launch (sv : Services) (callId : String) :
    (∀ room, sv.create_room_result = some room →
      sv.get_token_result room.url MAX_SESSION_TIME = "" →
      create_daily_room sv callId =
        (Except.error (PyError.httpException 500 "Failed to get room or token"),
         [Event.roomCall roomParams,
          Event.tokenCall room.url MAX_SESSION_TIME]) ∧
      [Event.roomCall roomParams,
       Event.tokenCall room.url MAX_SESSION_TIME].countP isLaunch = 0) ∧
    (sv.create_room_result = none →
      (create_daily_room sv callId).1 =
        Except.error (PyError.attributeError
          "\x27NoneType\x27 object has no attribute \x27url\x27") ∧
      (create_daily_room sv callId).2.countP isLaunch = 0) := by
  constructor
  · intro room hr ht
    unfold create_daily_room
    rw [hr]
    simp [roomTruthy, ht, isLaunch]
  · intro hr
    unfold create_daily_room
    rw [hr]
    simp [isLaunch]

/-- Witness for the amended C3: the empty-token oracle on the first
conjunct, the missing-room oracle on the second. -/
theorem C3_empty_token_500_before_launch_witness :
    (create_daily_room svEmptyTok "CA1" =
      (Except.error (PyError.httpException 500 "Failed to get room or token"),
       [Event.roomCall roomParams,
        Event.tokenCall roomA.url MAX_SESSION_TIME]) ∧
     [Event.roomCall roomParams,
      Event.tokenCall roomA.url MAX_SESSION_TIME].countP isLaunch = 0) ∧
    ((create_daily_room svNone "CA1").1 =
      Except.error (PyError.attributeError
        "\x27NoneType\x27 object has no attribute \x27url\x27") ∧
     (create_daily_room svNone "CA1").2.countP isLaunch = 0) :=
  ⟨(C3_empty_token_500_before_launch svEmptyTok "CA1").1 roomA rfl rfl,
   (C3_empty_token_500_before_launch svNone "CA1").2 rfl⟩

/-- C4: every successful provisioning sequence makes exactly one
room-creation call and exactly one token call, and every token call in
its trace carries expiry 300 seconds, whatever the call identifier. -/
theorem C4_one_room_one_token_expiry_300 (sv : Services) (callId : String)
    (room : DailyRoomObject) (evs : List Event)
    (h : create_daily_room sv callId = (Except.ok room, evs)) :
    evs.countP isRoomCall = 1 ∧
    evs.countP isTokenCall = 1 ∧
    ∀ url expiry, Event.tokenCall url expiry ∈ evs → expiry = 300 := by
  obtain ⟨-, -, hevs⟩ := create_daily_room_ok_shape sv callId room evs h
  subst hevs
  refine ⟨rfl, rfl, ?_⟩
  intro url expiry hmem
  simp only [List.mem_cons, List.not_mem_nil, or_false] at hmem
  rcases hmem with h1 | h1 | h1 <;> first
    | exact Event.noConfusion h1
    | exact (Event.tokenCall.injEq _ _ _ _).mp h1 |>.2

/-- Witness for C4: the all-success oracle with call id CA123. -/
theorem C4_one_room_one_token_expiry_300_witness :
    (create_daily_room svOk "CA123").2.countP isRoomCall = 1 ∧
    (create_daily_room svOk "CA123").2.countP isTokenCall = 1 :=
  ⟨(C4_one_room_one_token_expiry_300 svOk "CA123" roomA _ rfl).1,
   (C4_one_room_one_token_expiry_300 svOk "CA123" roomA _ rfl).2.1⟩

/-- C5: every successful provisioning sequence launches the worker
exactly once, with the command consisting of the worker invocation
followed by exactly the four flags -u, -t, -i, -s in that order, whose
values are the service room url, the token issued for it, the call id and
the service room's bridge address, unmodified: the returned room is the
very room object handed back by the room service. -/
theorem C5_launch_four_flags_round_trip (sv : Services) (callId : String)
    (room : DailyRoomObject) (evs : List Event)
    (h : create_daily_room sv callId = (Except.ok room, evs)) :
    sv.create_room_result = some room ∧
    evs.countP isLaunch = 1 ∧
    Event.launch ("python3 -m bot_twilio" ++ flagArgs
      [("-u", room.url),
       ("-t", sv.get_token_result room.url MAX_SESSION_TIME),
       ("-i", callId),
       ("-s", room.config.sip_endpoint)]) ∈ evs := by
  obtain ⟨hr, -, hevs⟩ := create_daily_room_ok_shape sv callId room evs h
  subst hevs
  refine ⟨hr, rfl, ?_⟩
  rw [← bot_cmd_flags]
  simp

/-- Witness for C5: the all-success oracle with call id CA123. -/
theorem C5_launch_four_flags_round_trip_witness :
    svOk.create_room_result = some roomA ∧
    (create_daily_room svOk "CA123").2.countP isLaunch = 1 ∧
    Event.launch ("python3 -m bot_twilio" ++ flagArgs
      [("-u", roomA.url),
       ("-t", svOk.get_token_result roomA.url MAX_SESSION_TIME),
       ("-i", "CA123"),
       ("-s", roomA.config.sip_endpoint)]) ∈
      (create_daily_room svOk "CA123").2 :=
  C5_launch_four_flags_round_trip svOk "CA123" roomA _ rfl

/-- If some variable of `vars` is absent from the environment, the
startup walk over `vars` errors, naming a variable of `vars` that is
genuinely absent. -/
lemma check_env_vars_missing (vars : List String) (env : List (String × String))
    (v : String) (hv : v ∈ vars)
    (habs : (env.map Prod.fst).contains v = false) :
    ∃ w, w ∈ vars ∧ (env.map Prod.fst).contains w = false ∧
      check_env_vars vars env =
        Except.error ("Missing environment variable: " ++ w ++ ".") := by
  induction vars with
  | nil => cases hv
  | cons a rest ih =>
      by_cases ha : (env.map Prod.fst).contains a
      · have hva : v ≠ a := by
          intro he
          rw [he, ha] at habs
          exact Bool.noConfusion habs
        have hv2 : v ∈ rest := by
          rcases List.mem_cons.mp hv with h1 | h1
          · exact absurd h1 hva
          · exact h1
        obtain ⟨w, hw1, hw2, hw3⟩ := ih hv2
        refine ⟨w, List.mem_cons_of_mem _ hw1, hw2, ?_⟩
        simp only [check_env_vars]
        rw [if_pos ha]
        exact hw3
      · refine ⟨a, List.mem_cons_self a rest, by simpa using ha, ?_⟩
        simp only [check_env_vars]
        rw [if_neg ha]

/-- C6: whenever the handler succeeds, its body is the voice response
holding exactly one Play verb with loop 10 and the fixed hold-music URL,
i.e. the explicit XML document shown. -/
theorem C6_success_response_hold_music (sv : Services) (req : Request)
    (body : String) (evs : List Event)
    (h : twilio_start_bot sv req = (Except.ok body, evs)) :
    body = renderVoiceResponse [TwimlVerb.play HOLD_MUSIC_URL 10] ∧
    body = "<?xml version=\"1.0\" encoding=\"UTF-8\"?><Response><Play loop=\"10\">http://com.twilio.sounds.music.s3.amazonaws.com/MARKOVICHAMP-Borghestral.mp3</Play></Response>" := by
  have hb := twilio_success_body sv req body evs h
  refine ⟨hb, ?_⟩
  rw [hb]
  rfl

/-- Witness for C6: the all-success oracle with a CallSid-bearing form. -/
theorem C6_success_response_hold_music_witness :
    renderVoiceResponse [TwimlVerb.play HOLD_MUSIC_URL 10] =
      "<?xml version=\"1.0\" encoding=\"UTF-8\"?><Response><Play loop=\"10\">http://com.twilio.sounds.music.s3.amazonaws.com/MARKOVICHAMP-Borghestral.mp3</Play></Response>" :=
  (C6_success_response_hold_music svOk reqOk
    (renderVoiceResponse [TwimlVerb.play HOLD_MUSIC_URL 10])
    (create_daily_room svOk "CA123").2 rfl).2

/-- C7: a request whose body fails to parse is handled exactly like one
with an empty field set — it is rejected only by the missing-CallSid
check, with no side effects — and an empty-string CallSid is handled the
same as an absent one. -/
theorem C7_parse_failure_empty_field_set (sv : Services) :
    twilio_start_bot sv { form := Except.error () } =
      twilio_start_bot sv { form := Except.ok [] } ∧
    twilio_start_bot sv { form := Except.error () } =
      (Except.error (PyError.httpException 500
        "Missing \x27CallSid\x27 in request"), []) ∧
    twilio_start_bot sv { form := Except.ok [("CallSid", "")] } =
      twilio_start_bot sv { form := Except.error () } :=
  ⟨rfl, rfl, rfl⟩

/-- C8: for any required environment variable absent from the
environment, startup fails naming a required variable that is genuinely
absent; and when every other required variable is present, the variable
named is exactly the absent one. -/
theorem C8_missing_env_refuses_start (env : List (String × String))
    (v : String) (hv : v ∈ REQUIRED_ENV_VARS)
    (habs : (env.map Prod.fst).contains v = false) :
    (∃ w, w ∈ REQUIRED_ENV_VARS ∧ (env.map Prod.fst).contains w = false ∧
      startup_env_check env =
        Except.error ("Missing environment variable: " ++ w ++ ".")) ∧
    ((∀ u, u ∈ REQUIRED_ENV_VARS → u ≠ v →
        (env.map Prod.fst).contains u = true) →
      startup_env_check env =
        Except.error ("Missing environment variable: " ++ v ++ ".")) := by
  refine ⟨check_env_vars_missing REQUIRED_ENV_VARS env v hv habs, ?_⟩
  intro hothers
  simp only [REQUIRED_ENV_VARS, List.mem_cons, List.not_mem_nil,
    or_false] at hv
  rcases hv with h1 | h1
  · subst h1
    simp only [startup_env_check, REQUIRED_ENV_VARS, check_env_vars]
    rw [if_neg (by rw [habs]; decide)]
  · subst h1
    have hA : (env.map Prod.fst).contains "OPENAI_API_KEY" = true := by
      refine hothers "OPENAI_API_KEY" (by simp [REQUIRED_ENV_VARS]) ?_
      intro he
      exact absurd he (by decide)
    simp only [startup_env_check, REQUIRED_ENV_VARS, check_env_vars]
    rw [if_pos hA, if_neg (by rw [habs]; decide)]

/-- Witness for C8: an environment holding only the Daily key; startup
reports the OpenAI key as missing. -/
theorem C8_missing_env_refuses_start_witness :
    (∃ w, w ∈ REQUIRED_ENV_VARS ∧
      (([("DAILY_API_KEY", "k")] : List (String × String)).map
        Prod.fst).contains w = false ∧
      startup_env_check [("DAILY_API_KEY", "k")] =
        Except.error ("Missing environment variable: " ++ w ++ ".")) :=
  (C8_missing_env_refuses_start [("DAILY_API_KEY", "k")] "OPENAI_API_KEY"
    (by simp [REQUIRED_ENV_VARS]) rfl).1

/-- C9: the room half of the `not room or not token` validation is dead:
with a missing room the function has already failed with the uncontrolled
attribute error, and whenever the controlled 500 validation error is
produced, the room service in fact returned a room and it was the token
that was empty. -/
theorem C9_room_missing_branch_unreachable (sv : Services) (callId : String) :
    (sv.create_room_result = none →
      (create_daily_room sv callId).1 =
        Except.error (PyError.attributeError
          "\x27NoneType\x27 object has no attribute \x27url\x27")) ∧
    ((create_daily_room sv callId).1 =
        Except.error (PyError.httpException 500 "Failed to get room or token") →
      ∃ room, sv.create_room_result = some room ∧
        sv.get_token_result room.url MAX_SESSION_TIME = "") := by
  constructor
  · intro hr
    unfold create_daily_room
    rw [hr]
  · intro h
    unfold create_daily_room at h
    split at h
    · simp at h
    · rename_i r hr
      split at h
      · rename_i hcond
        refine ⟨r, hr, ?_⟩
        simpa [roomTruthy] using hcond
      · split at h
        · simp only [Except.error.injEq, PyError.httpException.injEq,
            true_and] at h
          have hlen := congrArg String.length h
          rw [String.length_append] at hlen
          have h28 : ("Failed to start subprocess: ").length = 28 := rfl
          have h27 : ("Failed to get room or token").length = 27 := rfl
          rw [h28, h27] at hlen
          omega
        · simp at h

/-- Witness for C9: the missing-room oracle on the first conjunct, the
empty-token oracle on the second. -/
theorem C9_room_missing_branch_unreachable_witness :
    (create_daily_room svNone "CA1").1 =
      Except.error (PyError.attributeError
        "\x27NoneType\x27 object has no attribute \x27url\x27") ∧
    ∃ room, svEmptyTok.create_room_result = some room ∧
      svEmptyTok.get_token_result room.url MAX_SESSION_TIME = "" :=
  ⟨(C9_room_missing_branch_unreachable svNone "CA1").1 rfl,
   (C9_room_missing_branch_unreachable svEmptyTok "CA1").2 rfl⟩

/-- C10: the success body is one constant — two successful runs, whatever
their CallSid, room, bridge address or token, return identical bodies, so
neither the token nor the room address ever reaches the provider. -/
theorem C10_success_body_constant (sv1 sv2 : Services)
    (req1 req2 : Request) (b1 b2 : String) (e1 e2 : List Event)
    (h1 : twilio_start_bot sv1 req1 = (Except.ok b1, e1))
    (h2 : twilio_start_bot sv2 req2 = (Except.ok b2, e2)) :
    b1 = b2 := by
  rw [twilio_success_body sv1 req1 b1 e1 h1,
    twilio_success_body sv2 req2 b2 e2 h2]

/-- Witness for C10: two successful runs with different CallSid, room,
bridge address and token. -/
theorem C10_success_body_constant_witness :
    renderVoiceResponse [TwimlVerb.play HOLD_MUSIC_URL 10] =
      renderVoiceResponse [TwimlVerb.play HOLD_MUSIC_URL 10] :=
  C10_success_body_constant svOk svOk2 reqOk reqOk2
    (renderVoiceResponse [TwimlVerb.play HOLD_MUSIC_URL 10])
    (renderVoiceResponse [TwimlVerb.play HOLD_MUSIC_URL 10])
    (create_daily_room svOk "CA123").2
    (create_daily_room svOk2 "CA999").2 rfl rfl

end BotRunner
